import Mathlib

/-!
Shallow embedding of the digital-library core of this repository: the Book
model (validation, CRUD, lending transitions), the Author model (validation,
CRUD, deletion guard), and the borrow-route guard from the HTTP layer.
JavaScript `undefined` is modelled by `Option.none`; JS string truthiness,
`trim`, the ISBN normalisation and the validation regexes are translated
below.  Mongo documents become list-backed collections; `findOne`,
`updateOne` and `deleteOne` act on the first matching record.  Timestamps
are abstract day ordinals passed in as a `now` argument.
-/

deriving instance DecidableEq for Except

namespace Library

/-- JS `String.prototype.trim`: drop leading and trailing whitespace.
    (Structural on the character list, so proofs can evaluate it.) -/
def jsTrim (s : String) : String :=
  String.mk (((s.data.dropWhile Char.isWhitespace).reverse.dropWhile Char.isWhitespace).reverse)

/-- JS `String.prototype.toLowerCase` (ASCII case folding). -/
def jsToLower (s : String) : String :=
  String.mk (s.data.map Char.toLower)

/-- Does the second list start with the first one? -/
def leadsWith : List Char → List Char → Bool
  | [], _ => true
  | _ :: _, [] => false
  | p :: ps, c :: cs => p == c && leadsWith ps cs

/-- JS truthiness of an optional string: present and non-empty. -/
def strTruthy : Option String → Bool
  | none => false
  | some s => !s.data.isEmpty

/-- JS `!x?.trim()`: the field is absent or trims to the empty string. -/
def strBlank : Option String → Bool
  | none => true
  | some s => (jsTrim s).data.isEmpty

/-- JS truthiness of an optional number: present and non-zero. -/
def intTruthy : Option Int → Bool
  | none => false
  | some n => !(n == 0)

def isHexChar (c : Char) : Bool :=
  c.isDigit || (('a' ≤ c && c ≤ 'f') || ('A' ≤ c && c ≤ 'F'))

/-- mongodb `ObjectId.isValid` on a string: length 12 (byte string) or a
    24-character hex string. -/
def isValidObjectId (s : String) : Bool :=
  s.length == 12 || (s.length == 24 && s.data.all isHexChar)

/-- `s.replace(/[-\s]/g, "")`: strip hyphens and whitespace. -/
def stripIsbn (s : String) : String :=
  String.mk (s.data.filter (fun c => !(c == '-' || c.isWhitespace)))

/-- The ISBN format test of `validateBookData`: the regex `[\d-]` with
    bounds 10 and 17, anchored, applied to the stripped string. -/
def isbnFormatOk (s : String) : Bool :=
  let t := stripIsbn s
  t.data.all (fun c => c.isDigit || c == '-') && decide (10 ≤ t.length) && decide (t.length ≤ 17)

/-- The anchored date regex: four digits, hyphen, two digits, hyphen, two digits. -/
def isDateFormat (s : String) : Bool :=
  match s.data with
  | [y1, y2, y3, y4, h1, m1, m2, h2, d1, d2] =>
      y1.isDigit && y2.isDigit && y3.isDigit && y4.isDigit && h1 == '-' &&
      m1.isDigit && m2.isDigit && h2 == '-' && d1.isDigit && d2.isDigit
  | _ => false

def digitsToNat (cs : List Char) : Nat :=
  cs.foldl (fun a c => a * 10 + (c.toNat - 48)) 0

def isLeapYear (y : Nat) : Bool :=
  (y % 4 == 0 && y % 100 != 0) || y % 400 == 0

def daysInMonth (y m : Nat) : Nat :=
  if m == 2 then (if isLeapYear y then 29 else 28)
  else if m == 4 || m == 6 || m == 9 || m == 11 then 30
  else 31

/-- Value of JS `new Date(s)` for an ISO `YYYY-MM-DD` string, as the day
    ordinal `y*10000 + m*100 + d` (order-isomorphic to the epoch timestamp
    on valid dates); `none` models an Invalid Date, whose comparisons are
    all false (NaN).  Non-ISO date spellings are out of scope and modelled
    as invalid. -/
def jsDateValue (s : String) : Option Nat :=
  match s.data with
  | [y1, y2, y3, y4, h1, m1, m2, h2, d1, d2] =>
    if (y1.isDigit && y2.isDigit && y3.isDigit && y4.isDigit && h1 == '-' &&
        m1.isDigit && m2.isDigit && h2 == '-' && d1.isDigit && d2.isDigit) = true then
      let y := digitsToNat [y1, y2, y3, y4]
      let m := digitsToNat [m1, m2]
      let d := digitsToNat [d1, d2]
      if 1 ≤ m ∧ m ≤ 12 ∧ 1 ≤ d ∧ d ≤ daysInMonth y m then some (y * 10000 + m * 100 + d)
      else none
    else none
  | _ => none

/-- JS `new Date(birthDate) > new Date()` with `nowD` the current day ordinal. -/
def futureBirth (birthDate : String) (nowD : Nat) : Bool :=
  match jsDateValue birthDate with
  | some v => decide (v > nowD)
  | none => false

def noWsChars (l : List Char) : Bool :=
  l.all (fun c => !c.isWhitespace)

def hasInteriorDot (l : List Char) : Bool :=
  ((l.drop 1).dropLast).contains '.'

/-- Split a character list at every occurrence of `c`. -/
def splitOnChar (c : Char) : List Char → List (List Char)
  | [] => [[]]
  | x :: xs =>
    if x == c then [] :: splitOnChar c xs
    else
      match splitOnChar c xs with
      | h :: t => (x :: h) :: t
      | [] => [[x]]

/-- The email regex of `validateAuthorData`: one `@`, a non-empty
    whitespace-free local part, and a whitespace-free domain part
    containing a dot at an interior position. -/
def emailFormatOk (s : String) : Bool :=
  match splitOnChar '@' s.data with
  | [a, b] => !a.isEmpty && noWsChars a && noWsChars b && hasInteriorDot b
  | _ => false

/-- A stored book document of the `books` collection. -/
structure Book where
  id : String
  title : String
  authorId : String
  isbn : String
  genre : String
  publishedDate : String
  description : String
  totalPages : Int
  availability : Bool
  rating : Int
  borrowedBy : Option String
  borrowedDate : Option Nat
  returnDueDate : Option Nat
  createdAt : Nat
  updatedAt : Nat
deriving Repr, DecidableEq

structure SocialMedia where
  twitter : Option String
  instagram : Option String
  facebook : Option String
  linkedin : Option String
deriving Repr, DecidableEq

/-- A stored author document of the `authors` collection. -/
structure Author where
  id : String
  name : String
  bio : String
  birthDate : String
  nationality : String
  email : Option String
  website : Option String
  socialMedia : SocialMedia
  awards : List String
  isActive : Bool
  createdAt : Nat
  updatedAt : Nat
deriving Repr, DecidableEq

/-- The two collections of the backing store. -/
structure DB where
  authors : List Author
  books : List Book
deriving Repr, DecidableEq

/-- A create/update payload for a book; `none` is JS `undefined`. -/
structure BookData where
  title : Option String
  authorId : Option String
  isbn : Option String
  genre : Option String
  publishedDate : Option String
  description : Option String
  totalPages : Option Int
  rating : Option Int
  availability : Option Bool
deriving Repr, DecidableEq

structure SocialMediaData where
  twitter : Option String
  instagram : Option String
  facebook : Option String
  linkedin : Option String
deriving Repr, DecidableEq

/-- A create/update payload for an author. -/
structure AuthorData where
  name : Option String
  bio : Option String
  birthDate : Option String
  nationality : Option String
  email : Option String
  website : Option String
  socialMedia : Option SocialMediaData
  awards : Option (List String)
  isActive : Option Bool
deriving Repr, DecidableEq

structure ValidationResult where
  isValid : Bool
  errors : List String
deriving Repr, DecidableEq

/-- Book validation, from `validateBookData` of the Book model: required
    checks fire only on creation; format rules are each guarded by JS
    truthiness of the field and push their message independently; the
    result lists every violated rule in source order. -/
def validateBookData (d : BookData) (isUpdate : Bool) : ValidationResult :=
  let requiredErrors :=
    if isUpdate then []
    else
      (if strBlank d.title then ["Title is required"] else []) ++
      (if strBlank d.authorId then ["Author ID is required"] else []) ++
      (if strBlank d.isbn then ["ISBN is required"] else []) ++
      (if strBlank d.genre then ["Genre is required"] else []) ++
      (if strBlank d.publishedDate then ["Published date is required"] else []) ++
      (if d.totalPages.isNone then ["Total pages is required"] else []) ++
      (if strBlank d.description then ["Description is required"] else [])
  let formatErrors :=
    (if strTruthy d.isbn && !isbnFormatOk (d.isbn.getD "") then
        ["Invalid ISBN format (should be 10 or 13 digits)"] else []) ++
    (if strTruthy d.publishedDate && !isDateFormat (d.publishedDate.getD "") then
        ["Invalid date format (should be YYYY-MM-DD)"] else []) ++
    (if d.totalPages.isSome && (decide (d.totalPages.getD 0 < 1) || decide (d.totalPages.getD 0 > 10000)) then
        ["Total pages must be between 1 and 10000"] else []) ++
    (if d.rating.isSome && (decide (d.rating.getD 0 < 0) || decide (d.rating.getD 0 > 5)) then
        ["Rating must be between 0 and 5"] else []) ++
    (if strTruthy d.authorId && !isValidObjectId (d.authorId.getD "") then
        ["Invalid author ID format"] else [])
  let errors := requiredErrors ++ formatErrors
  ⟨errors.isEmpty, errors⟩

/-- Author validation, from `validateAuthorData` of the Author model;
    `nowD` is the day ordinal of the current date, used by the
    future-birth-date rule. -/
def validateAuthorData (d : AuthorData) (isUpdate : Bool) (nowD : Nat) : ValidationResult :=
  let requiredErrors :=
    if isUpdate then []
    else
      (if strBlank d.name then ["Name is required"] else []) ++
      (if strBlank d.bio then ["Bio is required"] else []) ++
      (if strBlank d.birthDate then ["Birth date is required"] else []) ++
      (if strBlank d.nationality then ["Nationality is required"] else [])
  let formatErrors :=
    (if strTruthy d.birthDate && !isDateFormat (d.birthDate.getD "") then
        ["Invalid birth date format (should be YYYY-MM-DD)"] else []) ++
    (if strTruthy d.email && !emailFormatOk (d.email.getD "") then
        ["Invalid email format"] else []) ++
    (if strTruthy d.website && !leadsWith "http".data (d.website.getD "").data then
        ["Website must start with http:// or https://"] else []) ++
    (if strTruthy d.birthDate && futureBirth (d.birthDate.getD "") nowD then
        ["Birth date cannot be in the future"] else [])
  let errors := requiredErrors ++ formatErrors
  ⟨errors.isEmpty, errors⟩

/-- An independent validation rule: a predicate on the candidate input and
    the message it contributes when violated. -/
structure VRule (α : Type) where
  viol : α → Bool
  msg : String

/-- Messages of all rules a candidate violates, in rule order. -/
def violationMsgs (rs : List (VRule α)) (d : α) : List String :=
  (rs.filter (fun r => r.viol d)).map (fun r => r.msg)

/-- The required-field rules of `validateBookData`, as independent rules. -/
def bookCreateRules : List (VRule BookData) :=
  [⟨fun d => strBlank d.title, "Title is required"⟩,
   ⟨fun d => strBlank d.authorId, "Author ID is required"⟩,
   ⟨fun d => strBlank d.isbn, "ISBN is required"⟩,
   ⟨fun d => strBlank d.genre, "Genre is required"⟩,
   ⟨fun d => strBlank d.publishedDate, "Published date is required"⟩,
   ⟨fun d => d.totalPages.isNone, "Total pages is required"⟩,
   ⟨fun d => strBlank d.description, "Description is required"⟩]

/-- The format rules of `validateBookData`, as independent rules. -/
def bookFormatRules : List (VRule BookData) :=
  [⟨fun d => strTruthy d.isbn && !isbnFormatOk (d.isbn.getD ""),
    "Invalid ISBN format (should be 10 or 13 digits)"⟩,
   ⟨fun d => strTruthy d.publishedDate && !isDateFormat (d.publishedDate.getD ""),
    "Invalid date format (should be YYYY-MM-DD)"⟩,
   ⟨fun d => d.totalPages.isSome && (decide (d.totalPages.getD 0 < 1) || decide (d.totalPages.getD 0 > 10000)),
    "Total pages must be between 1 and 10000"⟩,
   ⟨fun d => d.rating.isSome && (decide (d.rating.getD 0 < 0) || decide (d.rating.getD 0 > 5)),
    "Rating must be between 0 and 5"⟩,
   ⟨fun d => strTruthy d.authorId && !isValidObjectId (d.authorId.getD ""),
    "Invalid author ID format"⟩]

def bookRules (isUpdate : Bool) : List (VRule BookData) :=
  (if isUpdate then [] else bookCreateRules) ++ bookFormatRules

/-- The required-field rules of `validateAuthorData`; the input carries the
    current day ordinal used by the future-date rule. -/
def authorCreateRules : List (VRule (AuthorData × Nat)) :=
  [⟨fun x => strBlank x.1.name, "Name is required"⟩,
   ⟨fun x => strBlank x.1.bio, "Bio is required"⟩,
   ⟨fun x => strBlank x.1.birthDate, "Birth date is required"⟩,
   ⟨fun x => strBlank x.1.nationality, "Nationality is required"⟩]

/-- The format rules of `validateAuthorData`, as independent rules. -/
def authorFormatRules : List (VRule (AuthorData × Nat)) :=
  [⟨fun x => strTruthy x.1.birthDate && !isDateFormat (x.1.birthDate.getD ""),
    "Invalid birth date format (should be YYYY-MM-DD)"⟩,
   ⟨fun x => strTruthy x.1.email && !emailFormatOk (x.1.email.getD ""),
    "Invalid email format"⟩,
   ⟨fun x => strTruthy x.1.website && !leadsWith "http".data (x.1.website.getD "").data,
    "Website must start with http:// or https://"⟩,
   ⟨fun x => strTruthy x.1.birthDate && futureBirth (x.1.birthDate.getD "") x.2,
    "Birth date cannot be in the future"⟩]

def authorRules (isUpdate : Bool) : List (VRule (AuthorData × Nat)) :=
  (if isUpdate then [] else authorCreateRules) ++ authorFormatRules

/-- The failures the core throws.  The source throws generic `Error`s whose
    message text the route layer substring-matches; each constructor here
    stands for one thrown message, and the classification predicates below
    follow the error taxonomy of the spec (ValidationError / NotFoundError /
    ConflictError). -/
inductive LibError where
  | validationFailed (errors : List String)
  | invalidBookIdFormat
  | invalidAuthorIdFormat
  | bookNotFound
  | authorNotFound
  | isbnExists
  | isbnExistsOther
  | emailExists
  | emailExistsOther
  | cannotDeleteBorrowed
  | authorHasBooks (count : Nat)
  | notAvailable
  | notBorrowed
deriving Repr, DecidableEq

/-- Errors of the ConflictError class: uniqueness or integrity violations. -/
def LibError.isConflict : LibError → Bool
  | .isbnExists | .isbnExistsOther | .emailExists | .emailExistsOther
  | .cannotDeleteBorrowed | .authorHasBooks _ | .notAvailable | .notBorrowed => true
  | _ => false

/-- Errors of the NotFoundError class: malformed or unresolved identifiers. -/
def LibError.isNotFoundClass : LibError → Bool
  | .bookNotFound | .authorNotFound | .invalidBookIdFormat | .invalidAuthorIdFormat => true
  | _ => false

def LibError.isValidation : LibError → Bool
  | .validationFailed _ => true
  | _ => false

/-- Mongo `updateOne`: rewrite the first matching record. -/
def updateFirst (p : α → Bool) (f : α → α) : List α → List α
  | [] => []
  | x :: xs => if p x then f x :: xs else x :: updateFirst p f xs

/-- Mongo `deleteOne`: drop the first matching record. -/
def removeFirst (p : α → Bool) : List α → List α
  | [] => []
  | x :: xs => if p x then xs else x :: removeFirst p xs

/-- `findOne` on the books collection by `_id`. -/
def findBook (db : DB) (id : String) : Option Book :=
  db.books.find? (fun b => b.id == id)

/-- `findOne` on the authors collection by `_id`. -/
def findAuthor (db : DB) (id : String) : Option Author :=
  db.authors.find? (fun a => a.id == id)

structure DeleteResult where
  message : String
  deletedName : String
deriving Repr, DecidableEq

/-- `createBook` of the Book model: validate, check the ISBN for
    duplicates (the lookup key is the payload ISBN merely trimmed, while
    the stored value is hyphen/space-stripped), check the author exists,
    then insert. -/
def createBook (db : DB) (now : Nat) (newId : String) (d : BookData) :
    Except LibError (DB × Book) :=
  let v := validateBookData d false
  if !v.isValid then .error (.validationFailed v.errors)
  else
    let isbn := d.isbn.getD ""
    match db.books.find? (fun b => b.isbn == jsTrim isbn) with
    | some _ => .error .isbnExists
    | none =>
      let authorId := d.authorId.getD ""
      match findAuthor db authorId with
      | none => .error .authorNotFound
      | some _ =>
        let newBook : Book := {
          id := newId
          title := jsTrim (d.title.getD "")
          authorId := authorId
          isbn := stripIsbn (jsTrim isbn)
          genre := jsTrim (d.genre.getD "")
          publishedDate := jsTrim (d.publishedDate.getD "")
          description := jsTrim (d.description.getD "")
          totalPages := d.totalPages.getD 0
          availability := d.availability.getD true
          rating := d.rating.getD 0
          borrowedBy := none
          borrowedDate := none
          returnDueDate := none
          createdAt := now
          updatedAt := now }
        .ok ({ db with books := db.books ++ [newBook] }, newBook)

/-- The `$set` document built by `updateBookById`: one conditional
    assignment per payload field (JS truthiness guards for the strings and
    `totalPages`, presence guards for `rating` and `availability`), plus an
    unconditional `updatedAt` bump.  The conditionals touch disjoint
    fields, so the sequential source loop is rendered field-wise. -/
def applyBookUpdate (u : BookData) (now : Nat) (b : Book) : Book :=
  { b with
    title := if strTruthy u.title then jsTrim (u.title.getD "") else b.title
    authorId := if strTruthy u.authorId then u.authorId.getD "" else b.authorId
    isbn := if strTruthy u.isbn then stripIsbn (jsTrim (u.isbn.getD "")) else b.isbn
    genre := if strTruthy u.genre then jsTrim (u.genre.getD "") else b.genre
    publishedDate := if strTruthy u.publishedDate then jsTrim (u.publishedDate.getD "") else b.publishedDate
    description := if strTruthy u.description then jsTrim (u.description.getD "") else b.description
    totalPages := if intTruthy u.totalPages then u.totalPages.getD 0 else b.totalPages
    rating := if u.rating.isSome then u.rating.getD 0 else b.rating
    availability := if u.availability.isSome then u.availability.getD false else b.availability
    updatedAt := now }

/-- `updateBookById` of the Book model: id-format check, update-mode
    validation, duplicate-ISBN check against other records (here on the
    normalised ISBN), author re-check when `authorId` is supplied, then the
    partial `$set`; a missing record surfaces as not-found. -/
def updateBookById (db : DB) (now : Nat) (id : String) (u : BookData) :
    Except LibError (DB × Book) :=
  if !isValidObjectId id then .error .invalidBookIdFormat
  else
    let v := validateBookData u true
    if !v.isValid then .error (.validationFailed v.errors)
    else if strTruthy u.isbn &&
        db.books.any (fun b => b.isbn == stripIsbn (jsTrim (u.isbn.getD "")) && !(b.id == id)) then
      .error .isbnExistsOther
    else if strTruthy u.authorId && isValidObjectId (u.authorId.getD "") &&
        (findAuthor db (u.authorId.getD "")).isNone then
      .error .authorNotFound
    else
      match findBook db id with
      | none => .error .bookNotFound
      | some b =>
        .ok ({ db with books := updateFirst (fun bb => bb.id == id) (applyBookUpdate u now) db.books },
             applyBookUpdate u now b)

/-- `deleteBookById` of the Book model: id-format check, lookup, then the
    lending guard `if (book.borrowedBy)` — a JS truthiness test on the
    stored borrower — before the delete. -/
def deleteBookById (db : DB) (id : String) : Except LibError (DB × DeleteResult) :=
  if !isValidObjectId id then .error .invalidBookIdFormat
  else
    match findBook db id with
    | none => .error .bookNotFound
    | some book =>
      if strTruthy book.borrowedBy then .error .cannotDeleteBorrowed
      else
        .ok ({ db with books := removeFirst (fun b => b.id == id) db.books },
             ⟨"Book deleted successfully", book.title⟩)

/-- `borrowBook` of the Book model: id-format check, lookup, availability
    guard, then the lending `$set` (trimmed borrower, borrow date `now`,
    due date `now` plus fourteen days). -/
def borrowBook (db : DB) (now : Nat) (id : String) (borrowerInfo : String) :
    Except LibError (DB × Book) :=
  if !isValidObjectId id then .error .invalidBookIdFormat
  else
    match findBook db id with
    | none => .error .bookNotFound
    | some book =>
      if !book.availability then .error .notAvailable
      else
        let upd := fun (b : Book) =>
          { b with availability := false, borrowedBy := some (jsTrim borrowerInfo),
                   borrowedDate := some now, returnDueDate := some (now + 14),
                   updatedAt := now }
        .ok ({ db with books := updateFirst (fun b => b.id == id) upd db.books }, upd book)

/-- `returnBook` of the Book model: id-format check, lookup, on-loan guard,
    then `availability := true` and `$unset` of the three borrower fields. -/
def returnBook (db : DB) (now : Nat) (id : String) : Except LibError (DB × Book) :=
  if !isValidObjectId id then .error .invalidBookIdFormat
  else
    match findBook db id with
    | none => .error .bookNotFound
    | some book =>
      if book.availability then .error .notBorrowed
      else
        let upd := fun (b : Book) =>
          { b with availability := true, borrowedBy := none,
                   borrowedDate := none, returnDueDate := none, updatedAt := now }
        .ok ({ db with books := updateFirst (fun b => b.id == id) upd db.books }, upd book)

/-- JS `x ? x.trim() : null` on an optional handle. -/
def optTrimOrNone (o : Option String) : Option String :=
  if strTruthy o then some (jsTrim (o.getD "")) else none

/-- `createAuthor` of the Author model: validate, check the normalised
    email for duplicates when one is supplied, then insert with defaults. -/
def createAuthor (db : DB) (now : Nat) (nowD : Nat) (newId : String) (d : AuthorData) :
    Except LibError (DB × Author) :=
  let v := validateAuthorData d false nowD
  if !v.isValid then .error (.validationFailed v.errors)
  else
    let emailNorm := jsToLower (jsTrim (d.email.getD ""))
    if strTruthy d.email && (db.authors.any (fun a => a.email == some emailNorm)) then
      .error .emailExists
    else
      let sm := d.socialMedia.getD ⟨none, none, none, none⟩
      let newAuthor : Author := {
        id := newId
        name := jsTrim (d.name.getD "")
        bio := jsTrim (d.bio.getD "")
        birthDate := jsTrim (d.birthDate.getD "")
        nationality := jsTrim (d.nationality.getD "")
        email := if strTruthy d.email then some emailNorm else none
        website := optTrimOrNone d.website
        socialMedia := ⟨optTrimOrNone sm.twitter, optTrimOrNone sm.instagram,
                        optTrimOrNone sm.facebook, optTrimOrNone sm.linkedin⟩
        awards := (d.awards.getD []).map jsTrim
        isActive := true
        createdAt := now
        updatedAt := now }
      .ok ({ db with authors := db.authors ++ [newAuthor] }, newAuthor)

/-- The `$set` document built by `updateAuthorById`: truthiness guards for
    the five strings, presence guards for `website`, `isActive`,
    `socialMedia` and `awards`, and an unconditional `updatedAt` bump. -/
def applyAuthorUpdate (u : AuthorData) (now : Nat) (a : Author) : Author :=
  { a with
    name := if strTruthy u.name then jsTrim (u.name.getD "") else a.name
    bio := if strTruthy u.bio then jsTrim (u.bio.getD "") else a.bio
    birthDate := if strTruthy u.birthDate then jsTrim (u.birthDate.getD "") else a.birthDate
    nationality := if strTruthy u.nationality then jsTrim (u.nationality.getD "") else a.nationality
    email := if strTruthy u.email then some (jsToLower (jsTrim (u.email.getD ""))) else a.email
    website := if u.website.isSome then optTrimOrNone u.website else a.website
    isActive := if u.isActive.isSome then u.isActive.getD false else a.isActive
    socialMedia :=
      match u.socialMedia with
      | some sm => ⟨optTrimOrNone sm.twitter, optTrimOrNone sm.instagram,
                    optTrimOrNone sm.facebook, optTrimOrNone sm.linkedin⟩
      | none => a.socialMedia
    awards :=
      match u.awards with
      | some aw => aw.map jsTrim
      | none => a.awards
    updatedAt := now }

/-- `updateAuthorById` of the Author model: id-format check, update-mode
    validation, duplicate-email check against other records, then the
    partial `$set`. -/
def updateAuthorById (db : DB) (now : Nat) (nowD : Nat) (id : String) (u : AuthorData) :
    Except LibError (DB × Author) :=
  if !isValidObjectId id then .error .invalidAuthorIdFormat
  else
    let v := validateAuthorData u true nowD
    if !v.isValid then .error (.validationFailed v.errors)
    else if strTruthy u.email &&
        db.authors.any (fun a => a.email == some (jsToLower (jsTrim (u.email.getD ""))) && !(a.id == id)) then
      .error .emailExistsOther
    else
      match findAuthor db id with
      | none => .error .authorNotFound
      | some a =>
        .ok ({ db with authors := updateFirst (fun x => x.id == id) (applyAuthorUpdate u now) db.authors },
             applyAuthorUpdate u now a)

/-- `deleteAuthorById` of the Author model: id-format check, lookup, the
    referencing-books count guard, then the delete with a confirmation
    payload naming the deleted author. -/
def deleteAuthorById (db : DB) (id : String) : Except LibError (DB × DeleteResult) :=
  if !isValidObjectId id then .error .invalidAuthorIdFormat
  else
    match findAuthor db id with
    | none => .error .authorNotFound
    | some author =>
      let booksCount := (db.books.filter (fun b => b.authorId == id)).length
      if booksCount > 0 then .error (.authorHasBooks booksCount)
      else
        .ok ({ db with authors := removeFirst (fun a => a.id == id) db.authors },
             ⟨"Author deleted successfully", author.name⟩)

/-- Failures of the borrow route handler. -/
inductive BorrowRouteError where
  | borrowerRequired
  | model (e : LibError)
deriving Repr, DecidableEq

/-- The `POST /books/:id/borrow` handler of the books router: it rejects a
    missing or blank `borrowerInfo` with a 400 validation response before
    ever calling `borrowBook`. -/
def borrowRoute (db : DB) (now : Nat) (id : String) (borrowerInfo : Option String) :
    Except BorrowRouteError (DB × Book) :=
  if strBlank borrowerInfo then .error .borrowerRequired
  else
    match borrowBook db now id (borrowerInfo.getD "") with
    | .ok r => .ok r
    | .error e => .error (.model e)

/-- The lending-state invariant of the spec: a stored book is unavailable
    exactly when a borrower is recorded on it. -/
def borrowInv (b : Book) : Prop :=
  b.availability = false ↔ b.borrowedBy.isSome = true

instance (b : Book) : Decidable (borrowInv b) := by
  unfold borrowInv; infer_instance

/-- Every stored book satisfies the lending-state invariant. -/
def dbBorrowInv (db : DB) : Prop :=
  ∀ b ∈ db.books, borrowInv b

instance (db : DB) : Decidable (dbBorrowInv db) := by
  unfold dbBorrowInv; infer_instance

/-- An empty book update payload. -/
def emptyBookData : BookData := ⟨none, none, none, none, none, none, none, none, none⟩

/-- An empty author update payload. -/
def emptyAuthorData : AuthorData := ⟨none, none, none, none, none, none, none, none, none⟩

/-- Sample identifiers (24-character hex strings, valid ObjectIds). -/
def aid : String := "aaaaaaaaaaaaaaaaaaaaaaaa"

def bid1 : String := "bbbbbbbbbbbbbbbbbbbbbbb1"

def bid2 : String := "bbbbbbbbbbbbbbbbbbbbbbb2"

def ghostAid : String := "cccccccccccccccccccccccc"

def author0 : Author :=
  ⟨aid, "Test", "x", "1980-01-01", "T", none, none, ⟨none, none, none, none⟩, [], true, 0, 0⟩

/-- A store holding one author and no books. -/
def db0 : DB := ⟨[author0], []⟩

/-- A valid creation payload for a book by `author0`. -/
def payload1 : BookData :=
  ⟨some "B1", some aid, some "1234567890", some "G", some "2020-01-01", some "d",
   some 100, none, none⟩

/-- The same book data with the ISBN written with hyphens. -/
def payload2 : BookData := { payload1 with isbn := some "123-456-7890" }

/-- The same book data with `availability: false` in the payload. -/
def payloadAF : BookData := { payload1 with availability := some false }

/-- An available stored book by `author0`. -/
def availableBook : Book :=
  ⟨bid1, "B1", aid, "1234567890", "G", "2020-01-01", "d", 100, true, 0, none, none, none, 0, 0⟩

/-- A store holding one author and one available book. -/
def dbB : DB := ⟨[author0], [availableBook]⟩

/-- A payload violating several book rules at once (two required fields
    present, one of them ill-formed, and a totalPages out of range). -/
def d9 : BookData := ⟨none, none, some "12", none, none, none, some 0, none, none⟩

/-- An author update payload with an ill-formed email. -/
def a9 : AuthorData := ⟨none, none, none, none, some "bad", none, none, none, none⟩

/-- The book of `dbB` after being borrowed by Alice at time 5. -/
def borrowedBook : Book :=
  { availableBook with availability := false, borrowedBy := some "Alice",
                       borrowedDate := some 5, returnDueDate := some 19, updatedAt := 5 }

/-- The store `dbB` after its book is borrowed by Alice at time 5. -/
def dbB2 : DB := ⟨[author0], [borrowedBook]⟩

/-- A store whose one book is on loan to Alice. -/
def dbLoan : DB := ⟨[author0], [borrowedBook]⟩

/-- A valid payload referencing an author id that resolves to nothing. -/
def payloadGhost : BookData := { payload1 with authorId := some ghostAid }

/-- The book of `dbB` after a borrow with a blank borrower at time 5. -/
def blankBorrowedBook : Book :=
  { availableBook with availability := false, borrowedBy := some "",
                       borrowedDate := some 5, returnDueDate := some 19, updatedAt := 5 }

theorem mem_removeFirst {p : α → Bool} {l : List α} {x : α}
    (h : x ∈ removeFirst p l) : x ∈ l := by
  induction l with
  | nil => simp [removeFirst] at h
  | cons a as ih =>
    rw [removeFirst] at h
    split at h
    · exact List.mem_cons_of_mem a h
    · rcases List.mem_cons.mp h with h1 | h2
      · exact h1 ▸ List.mem_cons_self a as
      · exact List.mem_cons_of_mem a (ih h2)

theorem mem_updateFirst {p : α → Bool} {f : α → α} {l : List α} {x : α}
    (h : x ∈ updateFirst p f l) : x ∈ l ∨ ∃ y, y ∈ l ∧ x = f y := by
  induction l with
  | nil => simp [updateFirst] at h
  | cons a as ih =>
    rw [updateFirst] at h
    split at h
    · rcases List.mem_cons.mp h with h1 | h2
      · exact Or.inr ⟨a, List.mem_cons_self a as, h1⟩
      · exact Or.inl (List.mem_cons_of_mem a h2)
    · rcases List.mem_cons.mp h with h1 | h2
      · exact Or.inl (h1 ▸ List.mem_cons_self a as)
      · rcases ih h2 with h3 | ⟨y, hy, hxy⟩
        · exact Or.inl (List.mem_cons_of_mem a h3)
        · exact Or.inr ⟨y, List.mem_cons_of_mem a hy, hxy⟩

theorem find?_updateFirst {p : α → Bool} {f : α → α} {l : List α} {x : α}
    (hf : ∀ a, p a = true → p (f a) = true) (h : l.find? p = some x) :
    (updateFirst p f l).find? p = some (f x) := by
  induction l with
  | nil => simp at h
  | cons a as ih =>
    cases hp : p a with
    | true =>
      rw [List.find?_cons_of_pos _ hp] at h
      injection h with h
      subst h
      rw [updateFirst, if_pos hp]
      exact List.find?_cons_of_pos _ (hf a hp)
    | false =>
      rw [List.find?_cons_of_neg _ (by simp [hp])] at h
      rw [updateFirst, if_neg (by simp [hp])]
      rw [List.find?_cons_of_neg _ (by simp [hp])]
      exact ih h

/-- C1: the claim says ISBN uniqueness is enforced on the normalised ISBN —
    for two `createBook` calls whose ISBNs agree after stripping hyphens
    and spaces, exactly one succeeds.  The code checks duplicates with the
    payload ISBN merely trimmed while storing it stripped, so a second,
    hyphenated spelling of the same ISBN slips past the check: starting
    from a store with one author and no books, creating with ISBN
    1234567890 and then with ISBN 123-456-7890 (equal once stripped) both
    succeed, leaving two stored books with the same normalised ISBN. -/
theorem c1_createBook_unnormalized_isbn_check :
    stripIsbn "123-456-7890" = stripIsbn "1234567890"
    ∧ ((createBook db0 0 bid1 payload1).bind (fun p => createBook p.1 1 bid2 payload2)).map
        (fun q => q.1.books.map Book.isbn) = .ok ["1234567890", "1234567890"] := by
  constructor
  · decide
  · decide

/-- C2 counterexample: `createBook` does not preserve the lending-state
    invariant.  From a store satisfying it, a valid payload that carries
    `availability: false` is accepted and yields a stored book with
    `availability = false` and no borrower, so the invariant fails. -/
theorem c2_createBook_breaks_invariant :
    dbBorrowInv db0
    ∧ (createBook db0 0 bid1 payloadAF).map
        (fun p => (p.2.availability, p.2.borrowedBy, decide (borrowInv p.2))) =
      .ok (false, none, false) := by
  constructor
  · decide
  · decide

/-- C3 counterexample: a stored book with `availability = false` is not
    always protected from deletion.  A book created with
    `availability: false` has no borrower, and `deleteBookById` guards on
    the truthiness of `borrowedBy`, so the delete succeeds and removes the
    book, while the claim requires a ConflictError. -/
theorem c3_delete_unavailable_book_succeeds :
    ((createBook db0 0 bid1 payloadAF).bind (fun p =>
        (deleteBookById p.1 bid1).map
          (fun q => (p.2.availability, q.2.deletedName, q.1.books.length)))) =
      .ok (false, "B1", 0) := by
  decide

/-- C6 counterexample: a `createBook` call whose `authorId` resolves to no
    author does not always fail with a NotFoundError.  With a fully valid
    payload whose ISBN duplicates a stored book, the duplicate-ISBN check
    fires first, so the call fails with the ConflictError `isbnExists`
    even though the author does not exist. -/
theorem c6_missing_author_can_fail_with_conflict :
    (findAuthor dbB ghostAid) = none
    ∧ createBook dbB 7 bid2 { payload1 with authorId := some ghostAid } = .error .isbnExists
    ∧ LibError.isbnExists.isNotFoundClass = false
    ∧ LibError.isbnExists.isConflict = true := by
  refine ⟨by decide, by decide, by decide, by decide⟩

theorem violationMsgs_nil (d : α) : violationMsgs ([] : List (VRule α)) d = [] := rfl

theorem violationMsgs_cons (f : α → Bool) (m : String) (rs : List (VRule α)) (d : α) :
    violationMsgs (⟨f, m⟩ :: rs) d = (if f d then [m] else []) ++ violationMsgs rs d := by
  by_cases h : f d = true <;> simp [violationMsgs, List.filter_cons, h]

theorem violationMsgs_append (rs ss : List (VRule α)) (d : α) :
    violationMsgs (rs ++ ss) d = violationMsgs rs d ++ violationMsgs ss d := by
  simp [violationMsgs, List.filter_append]

theorem bookCreateRules_msgs (d : BookData) :
    violationMsgs bookCreateRules d =
      (if strBlank d.title then ["Title is required"] else []) ++
      (if strBlank d.authorId then ["Author ID is required"] else []) ++
      (if strBlank d.isbn then ["ISBN is required"] else []) ++
      (if strBlank d.genre then ["Genre is required"] else []) ++
      (if strBlank d.publishedDate then ["Published date is required"] else []) ++
      (if d.totalPages.isNone then ["Total pages is required"] else []) ++
      (if strBlank d.description then ["Description is required"] else []) := by
  simp only [bookCreateRules, violationMsgs_cons, violationMsgs_nil, List.append_nil,
    ← List.append_assoc]

theorem bookFormatRules_msgs (d : BookData) :
    violationMsgs bookFormatRules d =
      (if strTruthy d.isbn && !isbnFormatOk (d.isbn.getD "") then
          ["Invalid ISBN format (should be 10 or 13 digits)"] else []) ++
      (if strTruthy d.publishedDate && !isDateFormat (d.publishedDate.getD "") then
          ["Invalid date format (should be YYYY-MM-DD)"] else []) ++
      (if d.totalPages.isSome && (decide (d.totalPages.getD 0 < 1) || decide (d.totalPages.getD 0 > 10000)) then
          ["Total pages must be between 1 and 10000"] else []) ++
      (if d.rating.isSome && (decide (d.rating.getD 0 < 0) || decide (d.rating.getD 0 > 5)) then
          ["Rating must be between 0 and 5"] else []) ++
      (if strTruthy d.authorId && !isValidObjectId (d.authorId.getD "") then
          ["Invalid author ID format"] else []) := by
  simp only [bookFormatRules, violationMsgs_cons, violationMsgs_nil, List.append_nil,
    ← List.append_assoc]

/-- The error list of `validateBookData` is exactly the accumulated
    messages of all independently violated book rules, in rule order. -/
theorem validateBookData_errors_eq (d : BookData) (isU : Bool) :
    (validateBookData d isU).errors = violationMsgs (bookRules isU) d := by
  cases isU with
  | false =>
    have h : violationMsgs (bookRules false) d =
        violationMsgs bookCreateRules d ++ violationMsgs bookFormatRules d := by
      rw [show bookRules false = bookCreateRules ++ bookFormatRules from rfl, violationMsgs_append]
    rw [h, bookCreateRules_msgs, bookFormatRules_msgs]
    rfl
  | true =>
    have h : violationMsgs (bookRules true) d = violationMsgs bookFormatRules d := by
      rw [show bookRules true = [] ++ bookFormatRules from rfl, violationMsgs_append,
        violationMsgs_nil, List.nil_append]
    rw [h, bookFormatRules_msgs]
    rfl

theorem validateBookData_isValid_iff (d : BookData) (isU : Bool) :
    (validateBookData d isU).isValid = true ↔ (validateBookData d isU).errors = [] := by
  simp [validateBookData, List.isEmpty_iff]

theorem authorCreateRules_msgs (d : AuthorData) (nowD : Nat) :
    violationMsgs authorCreateRules (d, nowD) =
      (if strBlank d.name then ["Name is required"] else []) ++
      (if strBlank d.bio then ["Bio is required"] else []) ++
      (if strBlank d.birthDate then ["Birth date is required"] else []) ++
      (if strBlank d.nationality then ["Nationality is required"] else []) := by
  simp only [authorCreateRules, violationMsgs_cons, violationMsgs_nil, List.append_nil,
    ← List.append_assoc]

theorem authorFormatRules_msgs (d : AuthorData) (nowD : Nat) :
    violationMsgs authorFormatRules (d, nowD) =
      (if strTruthy d.birthDate && !isDateFormat (d.birthDate.getD "") then
          ["Invalid birth date format (should be YYYY-MM-DD)"] else []) ++
      (if strTruthy d.email && !emailFormatOk (d.email.getD "") then
          ["Invalid email format"] else []) ++
      (if strTruthy d.website && !leadsWith "http".data (d.website.getD "").data then
          ["Website must start with http:// or https://"] else []) ++
      (if strTruthy d.birthDate && futureBirth (d.birthDate.getD "") nowD then
          ["Birth date cannot be in the future"] else []) := by
  simp only [authorFormatRules, violationMsgs_cons, violationMsgs_nil, List.append_nil,
    ← List.append_assoc]

/-- The error list of `validateAuthorData` is exactly the accumulated
    messages of all independently violated author rules, in rule order. -/
theorem validateAuthorData_errors_eq (d : AuthorData) (isU : Bool) (nowD : Nat) :
    (validateAuthorData d isU nowD).errors = violationMsgs (authorRules isU) (d, nowD) := by
  cases isU with
  | false =>
    have h : violationMsgs (authorRules false) (d, nowD) =
        violationMsgs authorCreateRules (d, nowD) ++ violationMsgs authorFormatRules (d, nowD) := by
      rw [show authorRules false = authorCreateRules ++ authorFormatRules from rfl,
        violationMsgs_append]
    rw [h, authorCreateRules_msgs, authorFormatRules_msgs]
    rfl
  | true =>
    have h : violationMsgs (authorRules true) (d, nowD) = violationMsgs authorFormatRules (d, nowD) := by
      rw [show authorRules true = [] ++ authorFormatRules from rfl, violationMsgs_append,
        violationMsgs_nil, List.nil_append]
    rw [h, authorFormatRules_msgs]
    rfl

theorem validateAuthorData_isValid_iff (d : AuthorData) (isU : Bool) (nowD : Nat) :
    (validateAuthorData d isU nowD).isValid = true ↔ (validateAuthorData d isU nowD).errors = [] := by
  simp [validateAuthorData, List.isEmpty_iff]

theorem createBook_invalid (db : DB) (now : Nat) (newId : String) (d : BookData)
    (h : (validateBookData d false).isValid = false) :
    createBook db now newId d = .error (.validationFailed (validateBookData d false).errors) := by
  simp [createBook, h]

theorem updateBookById_invalid (db : DB) (now : Nat) (id : String) (u : BookData)
    (hid : isValidObjectId id = true) (h : (validateBookData u true).isValid = false) :
    updateBookById db now id u = .error (.validationFailed (validateBookData u true).errors) := by
  simp [updateBookById, hid, h]

theorem createAuthor_invalid (db : DB) (now nowD : Nat) (newId : String) (d : AuthorData)
    (h : (validateAuthorData d false nowD).isValid = false) :
    createAuthor db now nowD newId d =
      .error (.validationFailed (validateAuthorData d false nowD).errors) := by
  simp [createAuthor, h]

theorem updateAuthorById_invalid (db : DB) (now nowD : Nat) (id : String) (u : AuthorData)
    (hid : isValidObjectId id = true) (h : (validateAuthorData u true nowD).isValid = false) :
    updateAuthorById db now nowD id u =
      .error (.validationFailed (validateAuthorData u true nowD).errors) := by
  simp [updateAuthorById, hid, h]



/-- C9: validation accumulates all violations.  The error list returned by
    `validateBookData` / `validateAuthorData` is exactly the list of
    messages of all independently violated rules (so every violated rule
    contributes its message, never only the first), `isValid` holds exactly
    when no rule is violated, and each create/update operation with an
    invalid payload fails with a ValidationError carrying that full list
    and returns no new store state (no write happens). -/
theorem c9_validation_accumulates :
    (∀ (d : BookData) (isU : Bool),
        (validateBookData d isU).errors = violationMsgs (bookRules isU) d)
    ∧ (∀ (d : BookData) (isU : Bool),
        ((validateBookData d isU).isValid = true ↔ violationMsgs (bookRules isU) d = []))
    ∧ (∀ (d : BookData) (isU : Bool) (r : VRule BookData),
        r ∈ bookRules isU → r.viol d = true → r.msg ∈ (validateBookData d isU).errors)
    ∧ (∀ (d : AuthorData) (isU : Bool) (nowD : Nat),
        (validateAuthorData d isU nowD).errors = violationMsgs (authorRules isU) (d, nowD))
    ∧ (∀ (d : AuthorData) (isU : Bool) (nowD : Nat),
        ((validateAuthorData d isU nowD).isValid = true ↔
          violationMsgs (authorRules isU) (d, nowD) = []))
    ∧ (∀ (d : AuthorData) (isU : Bool) (nowD : Nat) (r : VRule (AuthorData × Nat)),
        r ∈ authorRules isU → r.viol (d, nowD) = true →
          r.msg ∈ (validateAuthorData d isU nowD).errors)
    ∧ (∀ (db : DB) (now : Nat) (newId : String) (d : BookData),
        (validateBookData d false).isValid = false →
          createBook db now newId d = .error (.validationFailed (validateBookData d false).errors))
    ∧ (∀ (db : DB) (now : Nat) (id : String) (u : BookData),
        isValidObjectId id = true → (validateBookData u true).isValid = false →
          updateBookById db now id u = .error (.validationFailed (validateBookData u true).errors))
    ∧ (∀ (db : DB) (now nowD : Nat) (newId : String) (d : AuthorData),
        (validateAuthorData d false nowD).isValid = false →
          createAuthor db now nowD newId d =
            .error (.validationFailed (validateAuthorData d false nowD).errors))
    ∧ (∀ (db : DB) (now nowD : Nat) (id : String) (u : AuthorData),
        isValidObjectId id = true → (validateAuthorData u true nowD).isValid = false →
          updateAuthorById db now nowD id u =
            .error (.validationFailed (validateAuthorData u true nowD).errors)) := by
  refine ⟨validateBookData_errors_eq, ?_, ?_, validateAuthorData_errors_eq, ?_, ?_,
    createBook_invalid, updateBookById_invalid, createAuthor_invalid, updateAuthorById_invalid⟩
  · intro d isU
    rw [← validateBookData_errors_eq]
    exact validateBookData_isValid_iff d isU
  · intro d isU r hr hv
    rw [validateBookData_errors_eq]
    exact List.mem_map.mpr ⟨r, List.mem_filter.mpr ⟨hr, hv⟩, rfl⟩
  · intro d isU nowD
    rw [← validateAuthorData_errors_eq]
    exact validateAuthorData_isValid_iff d isU nowD
  · intro d isU nowD r hr hv
    rw [validateAuthorData_errors_eq]
    exact List.mem_map.mpr ⟨r, List.mem_filter.mpr ⟨hr, hv⟩, rfl⟩

/-- C9 witness: concrete payloads violating several rules, with the
    accumulated message list and the failing operations evaluated. -/
theorem c9_witness :
    "Title is required" ∈ (validateBookData d9 false).errors
    ∧ "Invalid ISBN format (should be 10 or 13 digits)" ∈ (validateBookData d9 false).errors
    ∧ "Total pages must be between 1 and 10000" ∈ (validateBookData d9 false).errors
    ∧ createBook db0 0 bid1 d9 = .error (.validationFailed (validateBookData d9 false).errors)
    ∧ updateBookById db0 1 bid1 d9 = .error (.validationFailed (validateBookData d9 true).errors)
    ∧ createAuthor db0 0 0 bid2 emptyAuthorData =
        .error (.validationFailed (validateAuthorData emptyAuthorData false 0).errors)
    ∧ updateAuthorById db0 1 0 aid a9 =
        .error (.validationFailed (validateAuthorData a9 true 0).errors) := by
  refine ⟨?_, ?_, ?_, ?_, ?_, ?_, ?_⟩
  · exact c9_validation_accumulates.2.2.1 d9 false ⟨fun d => strBlank d.title, "Title is required"⟩
      (by simp [bookRules, bookCreateRules]) (by decide)
  · exact c9_validation_accumulates.2.2.1 d9 false
      ⟨fun d => strTruthy d.isbn && !isbnFormatOk (d.isbn.getD ""),
       "Invalid ISBN format (should be 10 or 13 digits)"⟩
      (by simp [bookRules, bookCreateRules, bookFormatRules]) (by decide)
  · exact c9_validation_accumulates.2.2.1 d9 false
      ⟨fun d => d.totalPages.isSome && (decide (d.totalPages.getD 0 < 1) || decide (d.totalPages.getD 0 > 10000)),
       "Total pages must be between 1 and 10000"⟩
      (by simp [bookRules, bookCreateRules, bookFormatRules]) (by decide)
  · exact c9_validation_accumulates.2.2.2.2.2.2.1 db0 0 bid1 d9 (by decide)
  · exact c9_validation_accumulates.2.2.2.2.2.2.2.1 db0 1 bid1 d9 (by decide) (by decide)
  · exact c9_validation_accumulates.2.2.2.2.2.2.2.2.1 db0 0 0 bid2 emptyAuthorData (by decide)
  · exact c9_validation_accumulates.2.2.2.2.2.2.2.2.2 db0 1 0 aid a9 (by decide) (by decide)

theorem borrowInv_updateFirst {l : List Book} {p : Book → Bool} {f : Book → Book}
    (h : ∀ b ∈ l, borrowInv b) (hf : ∀ b ∈ l, borrowInv (f b)) :
    ∀ b ∈ updateFirst p f l, borrowInv b := by
  intro b hb
  rcases mem_updateFirst hb with h1 | ⟨y, hy, rfl⟩
  · exact h b h1
  · exact hf y hy

theorem applyBookUpdate_borrowedBy (u : BookData) (now : Nat) (b : Book) :
    (applyBookUpdate u now b).borrowedBy = b.borrowedBy := rfl

theorem applyBookUpdate_availability_none (u : BookData) (now : Nat) (b : Book)
    (h : u.availability = none) :
    (applyBookUpdate u now b).availability = b.availability := by
  show (if u.availability.isSome then u.availability.getD false else b.availability) = b.availability
  rw [h]
  rfl

/-- C2 (amended): the lending transitions `borrowBook` and `returnBook`,
    and `deleteBookById`, preserve the invariant that a stored book has
    `availability = false` exactly when `borrowedBy` is set; `createBook`
    and `updateBookById` preserve it when the payload does not carry an
    `availability` field.  (As stated the claim fails: a payload with
    `availability: false` makes `createBook` — and an `availability` field
    makes `updateBookById` — produce a book violating the invariant; see
    the counterexample.) -/
theorem c2_lending_ops_preserve_invariant :
    (∀ (db : DB) (now : Nat) (id info : String) (db2 : DB) (b2 : Book),
        dbBorrowInv db → borrowBook db now id info = .ok (db2, b2) → dbBorrowInv db2)
    ∧ (∀ (db : DB) (now : Nat) (id : String) (db2 : DB) (b2 : Book),
        dbBorrowInv db → returnBook db now id = .ok (db2, b2) → dbBorrowInv db2)
    ∧ (∀ (db : DB) (id : String) (db2 : DB) (r : DeleteResult),
        dbBorrowInv db → deleteBookById db id = .ok (db2, r) → dbBorrowInv db2)
    ∧ (∀ (db : DB) (now : Nat) (newId : String) (d : BookData) (db2 : DB) (b2 : Book),
        dbBorrowInv db → d.availability = none →
          createBook db now newId d = .ok (db2, b2) → dbBorrowInv db2)
    ∧ (∀ (db : DB) (now : Nat) (id : String) (u : BookData) (db2 : DB) (b2 : Book),
        dbBorrowInv db → u.availability = none →
          updateBookById db now id u = .ok (db2, b2) → dbBorrowInv db2) := by
  refine ⟨?_, ?_, ?_, ?_, ?_⟩
  · intro db now id info db2 b2 hinv h
    cases hid : isValidObjectId id with
    | false => simp [borrowBook, hid] at h
    | true =>
      cases hfb : findBook db id with
      | none => simp [borrowBook, hid, hfb] at h
      | some book =>
        cases hav : book.availability with
        | false => simp [borrowBook, hid, hfb, hav] at h
        | true =>
          simp only [borrowBook, hid, hfb, hav, Bool.not_true, Bool.false_eq_true, if_false,
            Except.ok.injEq, Prod.mk.injEq] at h
          obtain ⟨hdb, hb⟩ := h
          subst hdb
          exact borrowInv_updateFirst hinv (fun b hb => by simp [borrowInv])
  · intro db now id db2 b2 hinv h
    cases hid : isValidObjectId id with
    | false => simp [returnBook, hid] at h
    | true =>
      cases hfb : findBook db id with
      | none => simp [returnBook, hid, hfb] at h
      | some book =>
        cases hav : book.availability with
        | true => simp [returnBook, hid, hfb, hav] at h
        | false =>
          simp only [returnBook, hid, hfb, hav, Bool.not_true, Bool.false_eq_true, if_false,
            Except.ok.injEq, Prod.mk.injEq] at h
          obtain ⟨hdb, hb⟩ := h
          subst hdb
          exact borrowInv_updateFirst hinv (fun b hb => by simp [borrowInv])
  · intro db id db2 r hinv h
    cases hid : isValidObjectId id with
    | false => simp [deleteBookById, hid] at h
    | true =>
      cases hfb : findBook db id with
      | none => simp [deleteBookById, hid, hfb] at h
      | some book =>
        cases hbb : strTruthy book.borrowedBy with
        | true => simp [deleteBookById, hid, hfb, hbb] at h
        | false =>
          simp only [deleteBookById, hid, hfb, hbb, Bool.not_true, Bool.false_eq_true, if_false,
            Except.ok.injEq, Prod.mk.injEq] at h
          obtain ⟨hdb, hr⟩ := h
          subst hdb
          intro b hb
          exact hinv b (mem_removeFirst hb)
  · intro db now newId d db2 b2 hinv hav h
    cases hv : (validateBookData d false).isValid with
    | false => simp [createBook, hv] at h
    | true =>
      cases hdup : db.books.find? (fun b => b.isbn == jsTrim (d.isbn.getD "")) with
      | some x => simp [createBook, hv, hdup] at h
      | none =>
        cases hfa : findAuthor db (d.authorId.getD "") with
        | none => simp [createBook, hv, hdup, hfa] at h
        | some a =>
          simp only [createBook, hv, hdup, hfa, Bool.not_true, Bool.false_eq_true, if_false,
            Except.ok.injEq, Prod.mk.injEq] at h
          obtain ⟨hdb, hb⟩ := h
          subst hdb
          intro b hb
          rcases List.mem_append.mp hb with h1 | h2
          · exact hinv b h1
          · rcases List.mem_singleton.mp h2 with rfl
            simp [borrowInv, hav]
  · intro db now id u db2 b2 hinv huav h
    cases hid : isValidObjectId id with
    | false => simp [updateBookById, hid] at h
    | true =>
      cases hv : (validateBookData u true).isValid with
      | false => simp [updateBookById, hid, hv] at h
      | true =>
        cases hdup : strTruthy u.isbn &&
            db.books.any (fun b => b.isbn == stripIsbn (jsTrim (u.isbn.getD "")) && !(b.id == id)) with
        | true => simp [updateBookById, hid, hv, hdup] at h
        | false =>
          cases hmiss : strTruthy u.authorId && isValidObjectId (u.authorId.getD "") &&
              (findAuthor db (u.authorId.getD "")).isNone with
          | true => simp [updateBookById, hid, hv, hdup, hmiss] at h
          | false =>
            cases hfb : findBook db id with
            | none => simp [updateBookById, hid, hv, hdup, hmiss, hfb] at h
            | some b =>
              simp only [updateBookById, hid, hv, hdup, hmiss, hfb, Bool.not_true,
                Bool.false_eq_true, if_false, Except.ok.injEq, Prod.mk.injEq] at h
              obtain ⟨hdb, hb⟩ := h
              subst hdb
              refine borrowInv_updateFirst hinv (fun b hb => ?_)
              have h1 := applyBookUpdate_borrowedBy u now b
              have h2 := applyBookUpdate_availability_none u now b huav
              unfold borrowInv
              rw [h1, h2]
              exact hinv b hb



/-- C2 witness: after borrowing the one available book of a store that
    satisfies the lending-state invariant, the invariant still holds. -/
theorem c2_witness : dbBorrowInv dbB2 :=
  c2_lending_ops_preserve_invariant.1 dbB 5 bid1 "Alice" dbB2 borrowedBook
    (by decide) (by decide)

/-- C3 (amended): `deleteBookById` is guarded by the truthiness of the
    stored `borrowedBy`, not by `availability`: when the stored book has a
    non-empty borrower the delete fails with the ConflictError
    `cannotDeleteBorrowed` and no state change; otherwise — even when
    `availability` is false — it removes the book and returns a
    confirmation naming its title. -/
theorem c3_delete_guard (db : DB) (id : String) (b : Book)
    (hid : isValidObjectId id = true) (hfb : findBook db id = some b) :
    (strTruthy b.borrowedBy = true →
        deleteBookById db id = .error .cannotDeleteBorrowed
        ∧ LibError.cannotDeleteBorrowed.isConflict = true)
    ∧ (strTruthy b.borrowedBy = false →
        deleteBookById db id =
          .ok ({ db with books := removeFirst (fun x => x.id == id) db.books },
               ⟨"Book deleted successfully", b.title⟩)) := by
  constructor
  · intro hbb
    exact ⟨by simp [deleteBookById, hid, hfb, hbb], rfl⟩
  · intro hbb
    simp [deleteBookById, hid, hfb, hbb]



/-- C3 witness: deleting the on-loan book fails with the ConflictError;
    deleting the available book succeeds and names it. -/
theorem c3_witness :
    (deleteBookById dbLoan bid1 = .error .cannotDeleteBorrowed
      ∧ LibError.cannotDeleteBorrowed.isConflict = true)
    ∧ deleteBookById dbB bid1 = .ok (⟨[author0], []⟩, ⟨"Book deleted successfully", "B1"⟩) := by
  constructor
  · exact (c3_delete_guard dbLoan bid1 borrowedBook (by decide) (by decide)).1 (by decide)
  · exact ((c3_delete_guard dbB bid1 availableBook (by decide) (by decide)).2 (by decide)).trans
      (by decide)

/-- C4: on an available stored book, `borrowBook` records the trimmed
    borrower, the borrow date `now` and the due date `now + 14` and flips
    `availability` to false; on a book already on loan it fails with the
    ConflictError `notAvailable` (so two borrows in a row succeed once and
    fail the second time); an id that resolves to no book fails with a
    NotFoundError-class failure. -/
theorem c4_borrow_behavior :
    (∀ (db : DB) (now : Nat) (id info : String) (b : Book),
        isValidObjectId id = true → findBook db id = some b → b.availability = true →
          borrowBook db now id info =
            .ok ({ db with books := updateFirst (fun x => x.id == id) (fun x =>
                     { x with availability := false, borrowedBy := some (jsTrim info),
                              borrowedDate := some now, returnDueDate := some (now + 14),
                              updatedAt := now }) db.books },
                 { b with availability := false, borrowedBy := some (jsTrim info),
                          borrowedDate := some now, returnDueDate := some (now + 14),
                          updatedAt := now }))
    ∧ (∀ (db : DB) (now : Nat) (id info : String) (b : Book),
        isValidObjectId id = true → findBook db id = some b → b.availability = false →
          borrowBook db now id info = .error .notAvailable
          ∧ LibError.notAvailable.isConflict = true)
    ∧ (∀ (db : DB) (now : Nat) (id info : String),
        findBook db id = none →
          ∃ e, borrowBook db now id info = .error e ∧ e.isNotFoundClass = true)
    ∧ (∀ (db db2 : DB) (now now2 : Nat) (id info info2 : String) (b2 : Book),
        borrowBook db now id info = .ok (db2, b2) →
          borrowBook db2 now2 id info2 = .error .notAvailable) := by
  refine ⟨?_, ?_, ?_, ?_⟩
  · intro db now id info b hid hfb hav
    simp [borrowBook, hid, hfb, hav]
  · intro db now id info b hid hfb hav
    exact ⟨by simp [borrowBook, hid, hfb, hav], rfl⟩
  · intro db now id info hfb
    cases hid : isValidObjectId id with
    | false => exact ⟨.invalidBookIdFormat, by simp [borrowBook, hid], rfl⟩
    | true => exact ⟨.bookNotFound, by simp [borrowBook, hid, hfb], rfl⟩
  · intro db db2 now now2 id info info2 b2 h
    cases hid : isValidObjectId id with
    | false => simp [borrowBook, hid] at h
    | true =>
      cases hfb : findBook db id with
      | none => simp [borrowBook, hid, hfb] at h
      | some book =>
        cases hav : book.availability with
        | false => simp [borrowBook, hid, hfb, hav] at h
        | true =>
          simp only [borrowBook, hid, hfb, hav, Bool.not_true, Bool.false_eq_true, if_false,
            Except.ok.injEq, Prod.mk.injEq] at h
          obtain ⟨hdb, hb⟩ := h
          have hfind2 : findBook db2 id = some
              { book with availability := false, borrowedBy := some (jsTrim info),
                          borrowedDate := some now, returnDueDate := some (now + 14),
                          updatedAt := now } := by
            rw [← hdb]
            exact find?_updateFirst (fun x hx => hx) hfb
          simp [borrowBook, hid, hfind2]

/-- C4 witness: borrowing the available book at time 5 records Alice and
    the due date 19; borrowing again fails `notAvailable`; borrowing an id
    resolving to no book fails in the NotFound class. -/
theorem c4_witness :
    borrowBook dbB 5 bid1 "Alice" = .ok (dbB2, borrowedBook)
    ∧ borrowBook dbB2 6 bid1 "Bob" = .error .notAvailable
    ∧ (∃ e, borrowBook dbB 9 bid2 "Carol" = .error e ∧ e.isNotFoundClass = true) := by
  refine ⟨?_, ?_, ?_⟩
  · exact (c4_borrow_behavior.1 dbB 5 bid1 "Alice" availableBook
      (by decide) (by decide) (by decide)).trans (by decide)
  · exact c4_borrow_behavior.2.2.2 dbB dbB2 5 6 bid1 "Alice" "Bob" borrowedBook
      (((c4_borrow_behavior.1 dbB 5 bid1 "Alice" availableBook
        (by decide) (by decide) (by decide)).trans (by decide)))
  · exact c4_borrow_behavior.2.2.1 dbB 9 bid2 "Carol" (by decide)

/-- C5: for an existing author, `deleteAuthorById` fails with the
    ConflictError `authorHasBooks` — leaving the store unchanged — exactly
    when at least one stored book references the author; with zero
    referencing books it succeeds, removes the author and returns a
    confirmation naming the deleted author. -/
theorem c5_delete_author_guard (db : DB) (id : String) (a : Author)
    (hid : isValidObjectId id = true) (hfa : findAuthor db id = some a) :
    ((db.books.filter (fun b => b.authorId == id)).length > 0 →
        deleteAuthorById db id =
          .error (.authorHasBooks (db.books.filter (fun b => b.authorId == id)).length)
        ∧ (LibError.authorHasBooks
            (db.books.filter (fun b => b.authorId == id)).length).isConflict = true)
    ∧ ((db.books.filter (fun b => b.authorId == id)).length = 0 →
        deleteAuthorById db id =
          .ok ({ db with authors := removeFirst (fun x => x.id == id) db.authors },
               ⟨"Author deleted successfully", a.name⟩)) := by
  constructor
  · intro hc
    exact ⟨by simp [deleteAuthorById, hid, hfa, hc], rfl⟩
  · intro hc
    simp [deleteAuthorById, hid, hfa, hc]

/-- C5 witness: deleting the author while one book references them fails
    with `authorHasBooks 1`; deleting the same author with no books
    succeeds and names them. -/
theorem c5_witness :
    deleteAuthorById dbB aid = .error (.authorHasBooks 1)
    ∧ (LibError.authorHasBooks 1).isConflict = true
    ∧ deleteAuthorById db0 aid = .ok (⟨[], []⟩, ⟨"Author deleted successfully", "Test"⟩) := by
  refine ⟨?_, ?_, ?_⟩
  · exact (((c5_delete_author_guard dbB aid author0 (by decide) (by decide)).1
      (by decide)).1).trans (by decide)
  · exact ((c5_delete_author_guard dbB aid author0 (by decide) (by decide)).1 (by decide)).2
  · exact ((c5_delete_author_guard db0 aid author0 (by decide) (by decide)).2
      (by decide)).trans (by decide)

/-- C6 (amended): a `createBook` call whose `authorId` resolves to no
    stored author always fails — so nothing is inserted and the books
    collection is untouched (an error result carries no new store) — and
    the failure is the NotFoundError `authorNotFound` provided the payload
    passes validation and the duplicate-ISBN lookup finds nothing; when an
    earlier check fires (invalid payload, or an ISBN the trimmed-key lookup
    matches) that earlier ValidationError/ConflictError is returned
    instead. -/
theorem c6_create_missing_author :
    (∀ (db : DB) (now : Nat) (newId : String) (d : BookData),
        findAuthor db (d.authorId.getD "") = none →
          ∃ e, createBook db now newId d = .error e)
    ∧ (∀ (db : DB) (now : Nat) (newId : String) (d : BookData),
        (validateBookData d false).isValid = true →
        db.books.find? (fun b => b.isbn == jsTrim (d.isbn.getD "")) = none →
        findAuthor db (d.authorId.getD "") = none →
          createBook db now newId d = .error .authorNotFound
          ∧ LibError.authorNotFound.isNotFoundClass = true) := by
  constructor
  · intro db now newId d hfa
    cases hv : (validateBookData d false).isValid with
    | false => exact ⟨.validationFailed (validateBookData d false).errors, by simp [createBook, hv]⟩
    | true =>
      cases hdup : db.books.find? (fun b => b.isbn == jsTrim (d.isbn.getD "")) with
      | some x => exact ⟨.isbnExists, by simp [createBook, hv, hdup]⟩
      | none => exact ⟨.authorNotFound, by simp [createBook, hv, hdup, hfa]⟩
  · intro db now newId d hv hdup hfa
    exact ⟨by simp [createBook, hv, hdup, hfa], rfl⟩



/-- C6 witness: with the ghost author the create fails `authorNotFound`
    on an empty book collection, and in general always fails. -/
theorem c6_witness :
    createBook db0 0 bid1 payloadGhost = .error .authorNotFound
    ∧ (∃ e, createBook dbB 7 bid2 payloadGhost = .error e) := by
  constructor
  · exact (c6_create_missing_author.2 db0 0 bid1 payloadGhost
      (by decide) (by decide) (by decide)).1
  · exact c6_create_missing_author.1 dbB 7 bid2 payloadGhost (by decide)

/-- C7 (amended): the non-empty-borrower requirement lives in the route
    handler, not in the core transition: `POST /books/:id/borrow` rejects a
    missing or blank `borrowerInfo` with a validation failure before
    calling `borrowBook`, while `borrowBook` itself accepts a borrower that
    trims to the empty string and moves an available book on loan with
    `borrowedBy = some ""`. -/
theorem c7_borrower_guard :
    (∀ (db : DB) (now : Nat) (id : String) (info : Option String),
        strBlank info = true → borrowRoute db now id info = .error .borrowerRequired)
    ∧ (∀ (db : DB) (now : Nat) (id s : String) (b : Book),
        isValidObjectId id = true → findBook db id = some b → b.availability = true →
        jsTrim s = "" →
          borrowBook db now id s =
            .ok ({ db with books := updateFirst (fun x => x.id == id) (fun x =>
                     { x with availability := false, borrowedBy := some "",
                              borrowedDate := some now, returnDueDate := some (now + 14),
                              updatedAt := now }) db.books },
                 { b with availability := false, borrowedBy := some "",
                          borrowedDate := some now, returnDueDate := some (now + 14),
                          updatedAt := now })) := by
  constructor
  · intro db now id info h
    simp [borrowRoute, h]
  · intro db now id s b hid hfb hav htrim
    simp [borrowBook, hid, hfb, hav, htrim]



/-- C7 witness: the route rejects a whitespace borrower, while the core
    transition accepts it and stores the empty borrower. -/
theorem c7_witness :
    borrowRoute dbB 5 bid1 (some "  ") = .error .borrowerRequired
    ∧ borrowBook dbB 5 bid1 "   " = .ok (⟨[author0], [blankBorrowedBook]⟩, blankBorrowedBook) := by
  constructor
  · exact c7_borrower_guard.1 dbB 5 bid1 (some "  ") (by decide)
  · exact (c7_borrower_guard.2 dbB 5 bid1 "   " availableBook
      (by decide) (by decide) (by decide) (by decide)).trans (by decide)

/-- C8: updating an existing book or author with an empty payload
    succeeds and rewrites the stored record with only `updatedAt` changed:
    every other field of the stored record is identical to its previous
    value, and no other record is touched. -/
theorem c8_empty_update_frame :
    (∀ (db : DB) (now : Nat) (id : String) (b : Book),
        isValidObjectId id = true → findBook db id = some b →
          updateBookById db now id emptyBookData =
            .ok ({ db with books := updateFirst (fun x => x.id == id) (fun x => { x with updatedAt := now }) db.books },
                 { b with updatedAt := now }))
    ∧ (∀ (db : DB) (now nowD : Nat) (id : String) (a : Author),
        isValidObjectId id = true → findAuthor db id = some a →
          updateAuthorById db now nowD id emptyAuthorData =
            .ok ({ db with authors := updateFirst (fun x => x.id == id) (fun x => { x with updatedAt := now }) db.authors },
                 { a with updatedAt := now })) := by
  constructor
  · intro db now id b hid hfb
    have hval : (validateBookData emptyBookData true).isValid = true := by decide
    have h1 : strTruthy emptyBookData.isbn = false := by decide
    have h2 : strTruthy emptyBookData.authorId = false := by decide
    have happ : applyBookUpdate emptyBookData now = fun x => { x with updatedAt := now } :=
      funext fun x => rfl
    simp [updateBookById, hid, hval, h1, h2, hfb, happ]
  · intro db now nowD id a hid hfa
    have hval : (validateAuthorData emptyAuthorData true nowD).isValid = true := rfl
    have h1 : strTruthy emptyAuthorData.email = false := by decide
    have happ : applyAuthorUpdate emptyAuthorData now = fun x => { x with updatedAt := now } :=
      funext fun x => rfl
    simp [updateAuthorById, hid, hval, h1, hfa, happ]

/-- C8 witness: the empty update bumps only `updatedAt` on the concrete
    stored book and author. -/
theorem c8_witness :
    updateBookById dbB 9 bid1 emptyBookData =
      .ok (⟨[author0], [{ availableBook with updatedAt := 9 }]⟩,
           { availableBook with updatedAt := 9 })
    ∧ updateAuthorById db0 9 0 aid emptyAuthorData =
      .ok (⟨[{ author0 with updatedAt := 9 }], []⟩, { author0 with updatedAt := 9 }) := by
  constructor
  · exact (c8_empty_update_frame.1 dbB 9 bid1 availableBook (by decide) (by decide)).trans
      (by decide)
  · exact (c8_empty_update_frame.2 db0 9 0 aid author0 (by decide) (by decide)).trans
      (by decide)

/-- C10: falsy string fields of a book update payload are silently
    ignored: for an existing book, an update whose `title`, `genre`,
    `description`, `publishedDate` and `isbn` are each either absent or
    the empty string succeeds without any validation error, leaves each of
    those stored fields at its previous value, and changes only
    `updatedAt`. -/
theorem c10_falsy_fields_ignored (db : DB) (now : Nat) (id : String) (b : Book)
    (t g de pd isb : Option String)
    (hid : isValidObjectId id = true) (hfb : findBook db id = some b)
    (ht : t = none ∨ t = some "") (hg : g = none ∨ g = some "")
    (hde : de = none ∨ de = some "") (hpd : pd = none ∨ pd = some "")
    (hisb : isb = none ∨ isb = some "") :
    updateBookById db now id ⟨t, none, isb, g, pd, de, none, none, none⟩ =
      .ok ({ db with books := updateFirst (fun x => x.id == id) (fun x => { x with updatedAt := now }) db.books },
           { b with updatedAt := now }) := by
  have hT : strTruthy t = false := by rcases ht with rfl | rfl <;> rfl
  have hG : strTruthy g = false := by rcases hg with rfl | rfl <;> rfl
  have hDe : strTruthy de = false := by rcases hde with rfl | rfl <;> rfl
  have hPd : strTruthy pd = false := by rcases hpd with rfl | rfl <;> rfl
  have hIsb : strTruthy isb = false := by rcases hisb with rfl | rfl <;> rfl
  have hN : strTruthy (none : Option String) = false := rfl
  have hNi : intTruthy (none : Option Int) = false := rfl
  have hval : (validateBookData ⟨t, none, isb, g, pd, de, none, none, none⟩ true).isValid = true := by
    simp [validateBookData, hT, hG, hDe, hPd, hIsb, hN, hNi]
  have happ : applyBookUpdate ⟨t, none, isb, g, pd, de, none, none, none⟩ now =
      fun x => { x with updatedAt := now } := by
    funext x
    simp [applyBookUpdate, hT, hG, hDe, hPd, hIsb, hN, hNi]
  simp [updateBookById, hid, hval, hIsb, hfb, happ, hN, hNi]

/-- C10 witness: an update payload with all five string fields set to the
    empty string is accepted and bumps only `updatedAt`. -/
theorem c10_witness :
    updateBookById dbB 9 bid1 ⟨some "", none, some "", some "", some "", some "", none, none, none⟩ =
      .ok (⟨[author0], [{ availableBook with updatedAt := 9 }]⟩,
           { availableBook with updatedAt := 9 }) := by
  exact (c10_falsy_fields_ignored dbB 9 bid1 availableBook
      (some "") (some "") (some "") (some "") (some "")
      (by decide) (by decide) (Or.inr rfl) (Or.inr rfl) (Or.inr rfl) (Or.inr rfl)
      (Or.inr rfl)).trans (by decide)

/-- C7 counterexample: the core `borrowBook` does not require non-empty
    borrower information.  On an available stored book, borrowing with a
    borrower that trims to the empty string succeeds and records the empty
    string as the borrower, instead of failing and leaving the book
    unchanged. -/
theorem c7_borrowBook_accepts_blank_borrower :
    (borrowBook dbB 5 bid1 "   ").map (fun p => (p.2.availability, p.2.borrowedBy)) =
      .ok (false, some "") := by
  decide

end Library
